import Mathlib

/-!
Verification development for the douyin-downloader repository.

Shallow embedding of the link-resolution, pagination, retry and download
components, with theorems checking the specification claims against the
code. External collaborators (HTTP fetch, PromisePool, filesystem,
download primitive) are modelled as explicit parameters or small state
machines; repository functions keep their source names.
-/

/-! ## String helpers

Executable models of the JavaScript string operations used by the code:
String.prototype.includes, startsWith and endsWith. -/

/-- Char-list version of: the first list is an exact leading segment of the second. -/
def leadEq : List Char → List Char → Bool
  | [], _ => true
  | _ :: _, [] => false
  | a :: as, b :: bs => a == b && leadEq as bs

/-- Char-list version of substring containment (the pattern occurs contiguously). -/
def hasSeq (pat : List Char) : List Char → Bool
  | [] => leadEq pat []
  | c :: cs => leadEq pat (c :: cs) || hasSeq pat cs

/-- Model of JavaScript s.includes(pat). -/
def strContains (s pat : String) : Bool := hasSeq pat.data s.data

/-- Model of JavaScript s.startsWith(pat). -/
def strStartsWith (s pat : String) : Bool := leadEq pat.data s.data

/-- Model of JavaScript s.endsWith(pat). -/
def strEndsWith (s pat : String) : Bool := leadEq pat.data.reverse s.data.reverse

/-- Model of JavaScript s.toLowerCase() (ASCII case folding, which is all
the classifiers rely on). -/
def strToLower (s : String) : String := String.mk (s.data.map Char.toLower)

/-- Model of the JavaScript truthiness chain a || b on strings: the empty
string is falsy, so it falls through to b. -/
def jsOrStr : Option String → String → String
  | none, b => b
  | some a, b => if a = "" then b else a

example : strContains "https://www.douyin.com/video/123" "douyin.com" = true := by decide
example : strContains "abc" "abd" = false := by decide
example : strEndsWith "a/b/" "/" = true := by decide

/-! ## src/utils/retry.ts -/

/-- Error object model for utils/retry.ts and the two error-handler files:
a JavaScript Error with name, message and the optional numeric fields the
classifiers inspect (error.statusCode, error.response.status). -/
structure JsError where
  name : String
  message : String
  statusCode : Option Int := none
  responseStatus : Option Int := none
  deriving DecidableEq, Repr

/-- withRetry loop body (src/utils/retry.ts lines 69-114). fn is the async
operation, called once per attempt; successive calls are indexed by the
attempt counter k (the source closure sees a changing world). fuel is the
number of retries still allowed, so the initial call uses fuel = retries:
the source condition attempt > retries coincides with fuel = 0 here. -/
def withRetryGo (fn : Nat → Except JsError α) (shouldRetry : JsError → Bool) :
    Nat → Nat → Except JsError α
  | fuel, k =>
    match fn k with
    | .ok a => .ok a
    | .error e =>
      if shouldRetry e = false then .error e
      else
        match fuel with
        | 0 => .error e
        | fuel' + 1 => withRetryGo fn shouldRetry fuel' (k + 1)

/-- withRetry (src/utils/retry.ts): run fn with up to retries additional
attempts after the first, governed by shouldRetry. -/
def withRetry (fn : Nat → Except JsError α) (retries : Nat)
    (shouldRetry : JsError → Bool) : Except JsError α :=
  withRetryGo fn shouldRetry retries 0

/-- Default shouldRetry of DEFAULT_RETRY_OPTIONS (src/utils/retry.ts line 41):
retry every error. -/
def defaultShouldRetry : JsError → Bool := fun _ => true

/-- calculateDelay (src/utils/retry.ts lines 50-61), over exact rationals.
Math.random() is the external randomness source, passed in as rand. -/
def calculateDelay (attempt : Nat) (minDelay maxDelay factor rand : ℚ) : ℚ :=
  let d := minDelay * factor ^ (attempt - 1)
  let d := d * (8/10 + rand * (4/10))
  min d maxDelay

/-- processBatch (src/utils/retry.ts lines 138-197). The PromisePool
collaborator is modelled by its contract: each item is processed by
fn wrapped in withRetry; a rejected item invokes the handleError callback,
which appends the error to the error list (with a custom handleError the
pool error array stays empty, so finalErrors is exactly the collected
list). Concurrent completion only permutes the lists, so the model
processes items in order; fn takes the item, its index, and the attempt
number. Totality of the definition models that processBatch itself never
throws. -/
def processBatchGo (fn : τ → Nat → Nat → Except JsError ρ) (retries : Nat)
    (shouldRetry : JsError → Bool) : List τ → Nat → List ρ × List JsError
  | [], _ => ([], [])
  | it :: rest, i =>
    let r := withRetry (fn it i) retries shouldRetry
    let (rs, es) := processBatchGo fn retries shouldRetry rest (i + 1)
    match r with
    | .ok a => (a :: rs, es)
    | .error e => (rs, e :: es)

/-- processBatch entry point: process all items starting at index 0. -/
def processBatch (items : List τ) (fn : τ → Nat → Nat → Except JsError ρ)
    (retries : Nat) (shouldRetry : JsError → Bool) : List ρ × List JsError :=
  processBatchGo fn retries shouldRetry items 0

/-- C1: for every item list, worker and options, processBatch returns an
outcome with results.length + errors.length = items.length: every item
contributes exactly one outcome, a terminal failure of one item never
aborts the siblings, and processBatch (a total function here) never
throws. -/
theorem processBatch_outcome_count (items : List τ)
    (fn : τ → Nat → Nat → Except JsError ρ) (retries : Nat)
    (shouldRetry : JsError → Bool) :
    (processBatch items fn retries shouldRetry).1.length
      + (processBatch items fn retries shouldRetry).2.length = items.length := by
  unfold processBatch
  generalize 0 = i
  induction items generalizing i with
  | nil => simp [processBatchGo]
  | cons it rest ih =>
    simp only [processBatchGo]
    cases withRetry (fn it i) retries shouldRetry with
    | ok a =>
      simp only [List.length_cons]
      have := ih (i + 1)
      omega
    | error e =>
      simp only [List.length_cons]
      have := ih (i + 1)
      omega

/-- The jitter factor applied by all three backoff implementations
(src/utils/retry.ts line 57, src/download/error-handler.ts line 66,
src/info/error-handler.ts line 90): 0.8 + Math.random() * 0.4. -/
def jitterFactor (rand : ℚ) : ℚ := 8/10 + rand * (4/10)

/-! ## src/info/error-handler.ts -/

namespace InfoErrorHandler

/-- RETRYABLE_ERROR_TYPES (src/info/error-handler.ts lines 12-18). -/
def RETRYABLE_ERROR_TYPES : List String :=
  ["TimeoutError", "NetworkError", "ConnectionError", "NavigationError", "AbortError"]

/-- The retryable message keywords (src/info/error-handler.ts lines 49-62). -/
def retryableMessages : List String :=
  ["timeout", "network", "connection", "temporarily unavailable", "rate limit",
   "too many requests", "server error", "internal error", "socket hang up",
   "econnreset", "econnrefused", "etimedout"]

/-- RetryConfig (src/info/error-handler.ts lines 21-26), delays as exact
rationals. -/
structure RetryConfig where
  maxRetries : Nat
  baseDelay : ℚ
  maxDelay : ℚ
  factor : ℚ

/-- DEFAULT_RETRY_CONFIG (src/info/error-handler.ts lines 29-34). -/
def DEFAULT_RETRY_CONFIG : RetryConfig :=
  { maxRetries := 3, baseDelay := 1000, maxDelay := 15000, factor := 2 }

/-- isRetryableError (src/info/error-handler.ts lines 41-77): retryable
error-name fragments, then lowercase message keywords, then the numeric
statusCode when present (5xx, 429, 408); otherwise not retryable. -/
def isRetryableError (e : JsError) : Bool :=
  if RETRYABLE_ERROR_TYPES.any (fun t => strContains e.name t) then true
  else
    let errorMessage := strToLower e.message
    if retryableMessages.any (fun msg => strContains errorMessage msg) then true
    else
      match e.statusCode with
      | some statusCode => 500 ≤ statusCode || statusCode == 429 || statusCode == 408
      | none => false

/-- calculateRetryDelay (src/info/error-handler.ts lines 85-94), with
Math.random() passed in as rand. -/
def calculateRetryDelay (attempt : Nat) (config : RetryConfig) (rand : ℚ) : ℚ :=
  let d := config.baseDelay * config.factor ^ (attempt - 1)
  let d := d * jitterFactor rand
  min d config.maxDelay

/-- fetchWithRetry loop (src/info/error-handler.ts lines 102-142): like
withRetry but the retry predicate is fixed to isRetryableError and checked
together with the attempt bound. fuel plays the role of
maxRetries - attempts already failed. -/
def fetchWithRetryGo (fetcher : Nat → Except JsError α) : Nat → Nat → Except JsError α
  | fuel, k =>
    match fetcher k with
    | .ok a => .ok a
    | .error e =>
      match fuel with
      | 0 => .error e
      | fuel' + 1 =>
        if isRetryableError e = false then .error e
        else fetchWithRetryGo fetcher fuel' (k + 1)

/-- fetchWithRetry entry point (maxRetries defaults to 3). -/
def fetchWithRetry (fetcher : Nat → Except JsError α) (maxRetries : Nat := 3) :
    Except JsError α :=
  fetchWithRetryGo fetcher maxRetries 0

/-- handleDouyinApiError (src/info/error-handler.ts lines 149-201). The
response-JSON branch is modelled by the optional respData field carrying
the parsed statusCode and statusMsg. -/
def handleDouyinApiError (respData : Option (Int × Option String)) (e : JsError) : JsError :=
  match respData with
  | some (code, msg) =>
    if code == 8 then { name := "Error", message := "抖音 API 請求頻率超過限制，請稍後再試" }
    else if code == 2101 then { name := "Error", message := "抖音 Cookie 已失效，請重新登入" }
    else if code == 2154 then { name := "Error", message := "該影片需要登入後才能查看" }
    else if code == 2190 then { name := "Error", message := "該影片不存在或已被刪除" }
    else
      { name := "Error",
        message := "抖音 API 錯誤: " ++ toString code ++ " - " ++ (msg.getD "未知錯誤") }
  | none =>
    let errorMessage := strToLower e.message
    if strContains errorMessage "cookie"
        && (strContains errorMessage "invalid" || strContains errorMessage "expired") then
      { name := "Error", message := "抖音 Cookie 已失效，請重新登入" }
    else if strContains errorMessage "captcha" || strContains errorMessage "人機驗證" then
      { name := "Error", message := "遇到抖音人機驗證，請稍後再試或更新 Cookie" }
    else if strContains errorMessage "rate limit" || strContains errorMessage "too many requests" then
      { name := "Error", message := "請求頻率過高，已被抖音限制，請稍後再試" }
    else if strContains errorMessage "not found" || strContains errorMessage "404" then
      { name := "Error", message := "影片不存在或已被刪除" }
    else e

end InfoErrorHandler

/-! ## src/download/error-handler.ts -/

namespace DownloadErrorHandler

/-- isRetryableError (src/download/error-handler.ts lines 137-172):
lowercase name/message keyword classification; network-style and
429/503/504 markers are retryable, 400/401/403/404-style markers are not,
and everything else is retryable by default. -/
def isRetryableError (e : JsError) : Bool :=
  let message := strToLower e.message
  let name := strToLower e.name
  if strContains name "network" || strContains message "network"
      || strContains message "connection" || strContains message "timeout"
      || strContains message "timed out" || strContains message "429"
      || strContains message "503" || strContains message "504" then true
  else if strContains message "404" || strContains message "403"
      || strContains message "401" || strContains message "400"
      || strContains message "not found" || strContains message "forbidden"
      || strContains message "unauthorized" || strContains message "bad request"
      || strContains message "permission denied" then false
  else true

end DownloadErrorHandler

/-- C7: the computed retry delay is exactly
min maxDelay (baseDelay * factor ^ (n-1) * jitter) for every attempt
n ≥ 1, the jitter factor stays inside the interval from 1 - 0.4/2 to
1 + 0.4/2 for every random draw in the unit interval, the delay never
exceeds maxDelay, and under the default config
(baseDelay 1000, factor 2, maxDelay 15000) the jitter-free delays for
attempts 1 to 5 are non-decreasing and capped at 15000. -/
theorem calculateDelay_spec :
    (∀ (n : Nat) (mn mx f r : ℚ), 1 ≤ n →
      calculateDelay n mn mx f r = min (mn * f ^ (n - 1) * jitterFactor r) mx)
    ∧ (∀ (n : Nat) (cfg : InfoErrorHandler.RetryConfig) (r : ℚ), 1 ≤ n →
      InfoErrorHandler.calculateRetryDelay n cfg r
        = min (cfg.baseDelay * cfg.factor ^ (n - 1) * jitterFactor r) cfg.maxDelay)
    ∧ (∀ (r : ℚ), 0 ≤ r → r ≤ 1 → 1 - (4/10)/2 ≤ jitterFactor r ∧ jitterFactor r ≤ 1 + (4/10)/2)
    ∧ (∀ (n : Nat) (mn mx f r : ℚ), calculateDelay n mn mx f r ≤ mx)
    ∧ (InfoErrorHandler.calculateRetryDelay 1 InfoErrorHandler.DEFAULT_RETRY_CONFIG (1/2)
        ≤ InfoErrorHandler.calculateRetryDelay 2 InfoErrorHandler.DEFAULT_RETRY_CONFIG (1/2)
      ∧ InfoErrorHandler.calculateRetryDelay 2 InfoErrorHandler.DEFAULT_RETRY_CONFIG (1/2)
        ≤ InfoErrorHandler.calculateRetryDelay 3 InfoErrorHandler.DEFAULT_RETRY_CONFIG (1/2)
      ∧ InfoErrorHandler.calculateRetryDelay 3 InfoErrorHandler.DEFAULT_RETRY_CONFIG (1/2)
        ≤ InfoErrorHandler.calculateRetryDelay 4 InfoErrorHandler.DEFAULT_RETRY_CONFIG (1/2)
      ∧ InfoErrorHandler.calculateRetryDelay 4 InfoErrorHandler.DEFAULT_RETRY_CONFIG (1/2)
        ≤ InfoErrorHandler.calculateRetryDelay 5 InfoErrorHandler.DEFAULT_RETRY_CONFIG (1/2)
      ∧ InfoErrorHandler.calculateRetryDelay 5 InfoErrorHandler.DEFAULT_RETRY_CONFIG (1/2) ≤ 15000) := by
  refine ⟨?_, ?_, ?_, ?_, ?_⟩
  · intro n mn mx f r _
    simp [calculateDelay, jitterFactor, mul_assoc]
  · intro n cfg r _
    simp [InfoErrorHandler.calculateRetryDelay, jitterFactor, mul_assoc]
  · intro r h0 h1
    constructor
    · unfold jitterFactor; nlinarith
    · unfold jitterFactor; nlinarith
  · intro n mn mx f r
    simp [calculateDelay]
  · norm_num [InfoErrorHandler.calculateRetryDelay, InfoErrorHandler.DEFAULT_RETRY_CONFIG,
      jitterFactor]

/-- Witness for C7 at concrete inputs: attempt 2 with base 1000, factor 2,
max 15000, rand 1/2. -/
theorem calculateDelay_spec_witness :
    calculateDelay 2 1000 15000 2 (1/2) = min (1000 * 2 ^ (2 - 1) * jitterFactor (1/2)) 15000
    ∧ (1 - (4/10)/2 ≤ jitterFactor (1/2) ∧ jitterFactor (1/2) ≤ 1 + (4/10)/2) := by
  exact ⟨calculateDelay_spec.1 2 1000 15000 2 (1/2) (by norm_num),
    calculateDelay_spec.2.2.1 (1/2) (by norm_num) (by norm_num)⟩

/-- C6 counterexample: an unknown, unclassified error (generic name, no
recognized message keyword, no status code) is classified NOT retryable by
the info error handler, contradicting the claim that unknown errors are
retryable by default. -/
theorem isRetryableError_unknown_counterexample :
    InfoErrorHandler.isRetryableError
      { name := "Error", message := "mysterious failure" } = false := by
  decide

/-- C6 amended: per predicate, the info classifier treats recognized
network/timeout names and message keywords as retryable, status codes of
至少 500 and 429 and 408 as retryable, other 4xx codes (401, 403, 404
included) as non-retryable, and unknown errors as NON-retryable by
default; the download classifier treats network/connection/timeout and
429/503/504 messages as retryable, 400/401/403/404-style messages as
non-retryable, and unknown errors as retryable by default; the default
shouldRetry of processBatch retries everything. -/
theorem isRetryableError_classification :
    (∀ c : Int, 500 ≤ c →
      InfoErrorHandler.isRetryableError
        { name := "Error", message := "request failed", statusCode := some c } = true)
    ∧ InfoErrorHandler.isRetryableError
        { name := "Error", message := "request failed", statusCode := some 429 } = true
    ∧ InfoErrorHandler.isRetryableError
        { name := "Error", message := "request failed", statusCode := some 408 } = true
    ∧ (∀ c : Int, 400 ≤ c → c < 500 → c ≠ 429 → c ≠ 408 →
      InfoErrorHandler.isRetryableError
        { name := "Error", message := "request failed", statusCode := some c } = false)
    ∧ InfoErrorHandler.isRetryableError { name := "TimeoutError", message := "x" } = true
    ∧ InfoErrorHandler.isRetryableError
        { name := "Error", message := "Connection reset by peer" } = true
    ∧ InfoErrorHandler.isRetryableError
        { name := "Error", message := "request failed" } = false
    ∧ DownloadErrorHandler.isRetryableError
        { name := "Error", message := "Request Timeout" } = true
    ∧ DownloadErrorHandler.isRetryableError
        { name := "Error", message := "HTTP error 503" } = true
    ∧ DownloadErrorHandler.isRetryableError
        { name := "Error", message := "404 Not Found" } = false
    ∧ DownloadErrorHandler.isRetryableError
        { name := "Error", message := "403 Forbidden" } = false
    ∧ DownloadErrorHandler.isRetryableError
        { name := "Error", message := "401 Unauthorized" } = false
    ∧ DownloadErrorHandler.isRetryableError
        { name := "Error", message := "mysterious failure" } = true
    ∧ (∀ e : JsError, defaultShouldRetry e = true) := by
  have h1 : (InfoErrorHandler.RETRYABLE_ERROR_TYPES.any fun t => strContains "Error" t) = false := by
    decide
  have h2 : (InfoErrorHandler.retryableMessages.any
      fun msg => strContains (strToLower "request failed") msg) = false := by decide
  refine ⟨?_, by decide, by decide, ?_, by decide, by decide, by decide, by decide, by decide,
    by decide, by decide, by decide, by decide, fun e => rfl⟩
  · intro c hc
    simp only [InfoErrorHandler.isRetryableError, h1, h2, Bool.false_eq_true, if_false]
    simp only [Bool.or_eq_true, decide_eq_true_eq, beq_iff_eq]
    omega
  · intro c hc1 hc2 hc3 hc4
    simp only [InfoErrorHandler.isRetryableError, h1, h2, Bool.false_eq_true, if_false]
    simp only [Bool.or_eq_false_iff, decide_eq_false_iff_not, beq_eq_false_iff_ne, ne_eq]
    omega

/-- Witness for C6 amended at concrete status codes 500 and 404. -/
theorem isRetryableError_classification_witness :
    InfoErrorHandler.isRetryableError
      { name := "Error", message := "request failed", statusCode := some 500 } = true
    ∧ InfoErrorHandler.isRetryableError
      { name := "Error", message := "request failed", statusCode := some 404 } = false :=
  ⟨isRetryableError_classification.1 500 (by norm_num),
   isRetryableError_classification.2.2.2.1 404 (by norm_num) (by norm_num)
     (by norm_num) (by norm_num)⟩

/-! ## src/douyin/info/user.ts -/

/-- The first-official-URL scan inside getOfficialVideoUrl
(src/douyin/info/user.ts lines 62-66). -/
def officialLoop : List String → Option String
  | [] => none
  | u :: us => if strContains u "douyin.com/aweme/v1/play" then some u else officialLoop us

/-- getOfficialVideoUrl (src/douyin/info/user.ts lines 57-70): empty string
for a missing or empty list, else the first URL containing the official
play marker, else the first URL. -/
def getOfficialVideoUrl : Option (List String) → String
  | none => ""
  | some [] => ""
  | some (u :: us) =>
    match officialLoop (u :: us) with
    | some v => v
    | none => u

/-- author block of an aweme_list item (user.ts AwemeItem interface). -/
structure AwemeAuthor where
  sec_uid : Option String
  uid : Option String
  nickname : Option String
  deriving DecidableEq, Repr

/-- statistics block of an aweme_list item. -/
structure AwemeStatistics where
  play_count : Option Int
  digg_count : Option Int
  comment_count : Option Int
  share_count : Option Int
  deriving DecidableEq, Repr

/-- An aweme_list item (user.ts lines 30-50); the optional chain
item.video?.play_addr?.url_list is flattened into one optional field. -/
structure AwemeItem where
  aweme_id : String
  desc : String
  create_time : Int
  url_list : Option (List String)
  author : Option AwemeAuthor
  statistics : Option AwemeStatistics
  deriving DecidableEq, Repr

/-- author part of UserVideoItem. -/
structure UserVideoAuthor where
  id : String
  nickname : String
  deriving DecidableEq, Repr

/-- stats part of UserVideoItem. -/
structure UserVideoStats where
  playCount : Option Int
  likeCount : Option Int
  commentCount : Option Int
  shareCount : Option Int
  deriving DecidableEq, Repr

/-- UserVideoItem as built by the page mapper (user.ts lines 158-178). -/
structure UserVideoItem where
  vid : String
  description : String
  createTime : Int
  videoPlayUrl : String
  author : UserVideoAuthor
  stats : UserVideoStats
  deriving DecidableEq, Repr

/-- The per-item mapping in fetchUserVideoPage (user.ts lines 158-178). -/
def mapAwemeItem (item : AwemeItem) : UserVideoItem :=
  { vid := item.aweme_id,
    description := item.desc,
    createTime := item.create_time,
    videoPlayUrl := getOfficialVideoUrl item.url_list,
    author :=
      { id := jsOrStr (item.author.bind (·.sec_uid)) (jsOrStr (item.author.bind (·.uid)) ""),
        nickname := jsOrStr (item.author.bind (·.nickname)) "未知作者" },
    stats :=
      { playCount := item.statistics.bind (·.play_count),
        likeCount := item.statistics.bind (·.digg_count),
        commentCount := item.statistics.bind (·.comment_count),
        shareCount := item.statistics.bind (·.share_count) } }

/-- The JSON shape of one API page; aweme_list = none models a missing or
non-array field. -/
structure ApiResponse where
  aweme_list : Option (List AwemeItem)
  status_code : Option Int
  status_msg : Option String
  max_cursor : Nat
  has_more : Option Int
  total : Option Nat
  deriving DecidableEq, Repr

/-- One page of results as returned by fetchUserVideoPage. -/
structure UserVideoPage where
  videos : List UserVideoItem
  nextCursor : Nat
  hasMore : Bool
  total : Option Nat
  deriving DecidableEq, Repr

/-- The fetcher closure passed to fetchWithRetry by fetchUserVideoPage
(user.ts lines 143-207): the inner try validates the response shape and
status code and maps the items; the inner catch converts a 403 (by
response status or message) into an empty terminal page and rethrows
everything else. resp is the outcome of the douyinApiGet call. -/
def fetchUserVideoPageBody (resp : Except JsError ApiResponse) : Except JsError UserVideoPage :=
  let attempt : Except JsError UserVideoPage :=
    match resp with
    | .error e => .error e
    | .ok response =>
      match response.aweme_list with
      | none => .error { name := "Error", message := "獲取用戶影片列表失敗，響應數據格式異常" }
      | some awemeList =>
        if (match response.status_code with | some sc => sc != 0 | none => false) then
          .error { name := "Error",
                   message := "獲取用戶影片失敗，狀態碼: " ++ toString (response.status_code.getD 0)
                     ++ ", 信息: " ++ (response.status_msg.getD "未知錯誤") }
        else
          .ok { videos := awemeList.map mapAwemeItem,
                nextCursor := response.max_cursor,
                hasMore := response.has_more == some 1,
                total := response.total }
  match attempt with
  | .ok p => .ok p
  | .error error =>
    if error.responseStatus == some 403 || strContains error.message "403" then
      .ok { videos := [], nextCursor := 0, hasMore := false, total := none }
    else .error error

/-- fetchUserVideoPage (user.ts lines 117-208): the body wrapped in
fetchWithRetry with the default 3 retries. resp gives the HTTP outcome per
cursor and attempt. -/
def fetchUserVideoPage (resp : Nat → Nat → Except JsError ApiResponse) (cursor : Nat) :
    Except JsError UserVideoPage :=
  InfoErrorHandler.fetchWithRetry (fun k => fetchUserVideoPageBody (resp cursor k)) 3

/-- The pagination loop of fetchUserVideos (user.ts lines 243-302),
instrumented with gas (none = the loop is still running after gas pages)
and a count of page requests issued. The outer catch wraps errors with
handleDouyinApiError and rethrows. -/
def fetchUserVideosGo (resp : Nat → Nat → Except JsError ApiResponse) (limit : Nat) :
    Nat → List UserVideoItem → Nat → Bool →
      Option (Except JsError (List UserVideoItem)) × Nat
  | 0, _, _, _ => (none, 0)
  | gas + 1, results, cursor, hasMore =>
    if hasMore ∧ (limit = 0 ∨ results.length < limit) then
      match fetchUserVideoPage resp cursor with
      | .error e => (some (.error (InfoErrorHandler.handleDouyinApiError none e)), 1)
      | .ok page =>
        let results := results ++ page.videos
        let cursor := page.nextCursor
        let hasMore := page.hasMore
        if 0 < limit ∧ limit ≤ results.length then (some (.ok (results.take limit)), 1)
        else if hasMore = false then (some (.ok results), 1)
        else
          let r := fetchUserVideosGo resp limit gas results cursor hasMore
          (r.1, r.2 + 1)
    else (some (.ok results), 0)

/-- fetchUserVideos pagination, starting from cursor 0 with empty results. -/
def fetchUserVideos (resp : Nat → Nat → Except JsError ApiResponse) (limit gas : Nat) :
    Option (Except JsError (List UserVideoItem)) × Nat :=
  fetchUserVideosGo resp limit gas [] 0 true

/-- officialLoop is exactly the first list element satisfying the official
URL marker. -/
theorem officialLoop_eq_find (us : List String) :
    officialLoop us = us.find? (fun x => strContains x "douyin.com/aweme/v1/play") := by
  induction us with
  | nil => rfl
  | cons u rest ih =>
    by_cases h : strContains u "douyin.com/aweme/v1/play" = true
    · simp [officialLoop, h, List.find?_cons_of_pos]
    · simp only [Bool.not_eq_true] at h
      simp [officialLoop, h, List.find?_cons_of_neg, ih]

/-- C10: getOfficialVideoUrl returns the empty string on a missing or
empty list, the first URL containing douyin.com/aweme/v1/play when one
exists, and otherwise the first element; as a total function it never
throws. -/
theorem getOfficialVideoUrl_spec :
    getOfficialVideoUrl none = ""
    ∧ getOfficialVideoUrl (some []) = ""
    ∧ (∀ (us : List String) (u : String),
        us.find? (fun x => strContains x "douyin.com/aweme/v1/play") = some u →
        getOfficialVideoUrl (some us) = u)
    ∧ (∀ us : List String,
        us.find? (fun x => strContains x "douyin.com/aweme/v1/play") = none →
        getOfficialVideoUrl (some us) = us.headD "") := by
  refine ⟨rfl, rfl, ?_, ?_⟩
  · intro us u h
    cases us with
    | nil => simp at h
    | cons a rest =>
      simp only [getOfficialVideoUrl, officialLoop_eq_find, h]
  · intro us h
    cases us with
    | nil => rfl
    | cons a rest =>
      simp only [getOfficialVideoUrl, officialLoop_eq_find, h, List.headD_cons]

/-- Witness for C10 on a concrete URL list with an official URL in second
position, and on one without any. -/
theorem getOfficialVideoUrl_spec_witness :
    getOfficialVideoUrl (some ["https://cdn.example/a",
      "https://api.douyin.com/aweme/v1/play/?video_id=7"]) =
      "https://api.douyin.com/aweme/v1/play/?video_id=7"
    ∧ getOfficialVideoUrl (some ["https://cdn.example/a", "https://cdn.example/b"]) =
      "https://cdn.example/a" :=
  ⟨getOfficialVideoUrl_spec.2.2.1 _ _ (by decide),
   getOfficialVideoUrl_spec.2.2.2 _ (by decide)⟩

/-- A constant upstream page for the stale-cursor scenario: always
has_more = 1, always the same cursor 37, always one item. -/
def staleItem : AwemeItem :=
  { aweme_id := "1", desc := "", create_time := 0, url_list := none,
    author := none, statistics := none }

/-- The stale upstream response: identical on every cursor and attempt. -/
def staleResp : Nat → Nat → Except JsError ApiResponse := fun _ _ =>
  .ok { aweme_list := some [staleItem], status_code := some 0, status_msg := none,
        max_cursor := 37, has_more := some 1, total := none }

/-- C2: against an upstream that always reports has-more with a
non-advancing cursor and a non-empty item list, the fetchUserVideos loop
(with no caller limit) never terminates and issues one page request per
unit of gas — for gas 101 and beyond it exceeds the 100-page safety
ceiling the claim asserts, because the code has neither a stale-cursor
guard nor a page-count ceiling. -/
theorem fetchUserVideos_stale_cursor_runaway :
    (∀ (gas : Nat) (results : List UserVideoItem) (cursor : Nat),
      fetchUserVideosGo staleResp 0 gas results cursor true = (none, gas))
    ∧ fetchUserVideos staleResp 0 101 = (none, 101) ∧ 100 < 101 := by
  have hgo : ∀ (gas : Nat) (results : List UserVideoItem) (cursor : Nat),
      fetchUserVideosGo staleResp 0 gas results cursor true = (none, gas) := by
    intro gas
    induction gas with
    | zero => intro results cursor; rfl
    | succ g ih =>
      intro results cursor
      have hpage : fetchUserVideoPage staleResp cursor =
          .ok { videos := [mapAwemeItem staleItem], nextCursor := 37, hasMore := true,
                total := none } := rfl
      simp [fetchUserVideosGo, hpage, ih]
  exact ⟨hgo, hgo 101 [] 0, by norm_num⟩

/-- Upstream for the malformed-page scenario: cursor 0 answers a good page
advancing to cursor 5 with more data, cursor 5 answers a response whose
aweme_list is missing. -/
def respMalformedSecond : Nat → Nat → Except JsError ApiResponse := fun cursor _ =>
  if cursor == 0 then
    .ok { aweme_list := some [staleItem], status_code := some 0, status_msg := none,
          max_cursor := 5, has_more := some 1, total := none }
  else
    .ok { aweme_list := none, status_code := some 0, status_msg := none,
          max_cursor := 0, has_more := some 0, total := none }

/-- C5 counterexample: with one good page accumulated, a malformed second
page makes fetchUserVideos raise a hard failure (the format error passed
through handleDouyinApiError), discarding the accumulated results, instead
of terminating gracefully with them. -/
theorem fetchUserVideos_malformed_counterexample :
    fetchUserVideos respMalformedSecond 0 10 =
      (some (.error { name := "Error", message := "獲取用戶影片列表失敗，響應數據格式異常" }), 2) := by
  rfl

/-- C5 amended: an access/permission failure (HTTP 403 by response status)
on a page fetch is converted into an empty terminal page, so the loop ends
gracefully with what was accumulated; but a malformed response (missing or
non-array aweme_list) is raised as a hard error rather than being treated
as done. -/
theorem fetchUserVideoPage_error_handling :
    (∀ (resp : Nat → Nat → Except JsError ApiResponse) (cursor : Nat) (e : JsError),
      resp cursor 0 = .error e → e.responseStatus = some 403 →
      fetchUserVideoPage resp cursor =
        .ok { videos := [], nextCursor := 0, hasMore := false, total := none })
    ∧ (∀ (resp : Nat → Nat → Except JsError ApiResponse) (cursor : Nat) (r : ApiResponse),
      resp cursor 0 = .ok r → r.aweme_list = none →
      fetchUserVideoPage resp cursor =
        .error { name := "Error", message := "獲取用戶影片列表失敗，響應數據格式異常" }) := by
  constructor
  · intro resp cursor e h1 h2
    simp only [fetchUserVideoPage, InfoErrorHandler.fetchWithRetry,
      InfoErrorHandler.fetchWithRetryGo, fetchUserVideoPageBody, h1, h2]
    rfl
  · intro resp cursor r h1 h2
    have hretry : InfoErrorHandler.isRetryableError
        { name := "Error", message := "獲取用戶影片列表失敗，響應數據格式異常" } = false := by decide
    have hmsg : strContains "獲取用戶影片列表失敗，響應數據格式異常" "403" = false := by decide
    simp only [fetchUserVideoPage, InfoErrorHandler.fetchWithRetry,
      InfoErrorHandler.fetchWithRetryGo, fetchUserVideoPageBody, h1, h2, hretry, hmsg]
    rfl

/-- Witness for C5 amended: a concrete 403 outcome yields the graceful
empty page, and a concrete malformed response yields the hard error. -/
theorem fetchUserVideoPage_error_handling_witness :
    fetchUserVideoPage
      (fun _ _ => .error { name := "Error", message := "Request failed", responseStatus := some 403 }) 0 =
      .ok { videos := [], nextCursor := 0, hasMore := false, total := none }
    ∧ fetchUserVideoPage
      (fun _ _ => .ok { aweme_list := none, status_code := some 0, status_msg := none,
                        max_cursor := 0, has_more := some 0, total := none }) 0 =
      .error { name := "Error", message := "獲取用戶影片列表失敗，響應數據格式異常" } :=
  ⟨fetchUserVideoPage_error_handling.1 _ 0 _ rfl rfl,
   fetchUserVideoPage_error_handling.2 _ 0 _ rfl rfl⟩

/-! ## src/douyin/parser/link-patterns.ts

Each regular expression of DOUYIN_LINK_PATTERNS is embedded as an
executable matcher with identical semantics: leftmost match position,
greedy quantifiers with backtracking (a dot never crosses a newline), and
the value of the single capture group. -/

/-- Consume an exact literal, returning the rest of the input. -/
def tryLit (lit : List Char) (cs : List Char) : Option (List Char) :=
  if leadEq lit cs then some (cs.drop lit.length) else none

/-- Leftmost match: try the matcher at each position from the left and
keep the first success (regex unanchored search). -/
def scanFirst (m : List Char → Option String) : List Char → Option String
  | [] => m []
  | c :: cs =>
    match m (c :: cs) with
    | some v => some v
    | none => scanFirst m cs

/-- Greedy dot-star then matcher: take the LAST position at which the
matcher succeeds, never crossing a newline (a dot does not match one). -/
def lastPosMatch (m : List Char → Option String) : List Char → Option String
  | [] => m []
  | c :: cs =>
    match (if c == '\n' then none else lastPosMatch m cs) with
    | some v => some v
    | none => m (c :: cs)

/-- Matcher for https?:// — the optional s is decided greedily (no
information is lost: the next required character is a colon). -/
def httpAt (cs : List Char) : Option (List Char) :=
  match tryLit "http".data cs with
  | none => none
  | some cs1 =>
    match cs1 with
    | 's' :: rest => tryLit "://".data rest
    | _ => tryLit "://".data cs1

/-- Matcher for the optional www. group, with backtracking: if consuming
www. makes the continuation fail, retry the continuation without it. -/
def wwwOpt (k : List Char → Option α) (cs : List Char) : Option α :=
  match tryLit "www.".data cs with
  | some cs1 =>
    match k cs1 with
    | some v => some v
    | none => k cs
  | none => k cs

/-- Greedy nonempty digit capture for a (\d+) group at the current position. -/
def digitsCapture (cs : List Char) : Option String :=
  let ds := cs.takeWhile Char.isDigit
  if ds.isEmpty then none else some (String.mk ds)

/-- Matcher at one position for the patterns of shape
https?://(www.)?LIT(\d+) — used by the standard, mobile, note and webapp
patterns. -/
def litDigitsAt (lit : String) (cs : List Char) : Option String :=
  match httpAt cs with
  | none => none
  | some cs1 =>
    wwwOpt (fun cs2 =>
      match tryLit lit.data cs2 with
      | none => none
      | some rest => digitsCapture rest) cs1

/-- A character of the short-link code class [a-zA-Z0-9_-]. -/
def shortChar (c : Char) : Bool := c.isAlphanum || c == '_' || c == '-'

/-- Matcher at one position for the short pattern
https?://v.douyin.com/([a-zA-Z0-9_-]+)/? (the optional trailing slash does
not affect the capture). -/
def shortAt (cs : List Char) : Option String :=
  match httpAt cs with
  | none => none
  | some cs1 =>
    match tryLit "v.douyin.com/".data cs1 with
    | none => none
    | some rest =>
      let ds := rest.takeWhile shortChar
      if ds.isEmpty then none else some (String.mk ds)

/-- Matcher at one position for the discover pattern
https?://(www.)?douyin.com/discover?.*modal_id=(\d+). -/
def discoverAt (cs : List Char) : Option String :=
  match httpAt cs with
  | none => none
  | some cs1 =>
    wwwOpt (fun cs2 =>
      match tryLit "douyin.com/discover?".data cs2 with
      | none => none
      | some rest =>
        lastPosMatch (fun cs3 =>
          match tryLit "modal_id=".data cs3 with
          | none => none
          | some r => digitsCapture r) rest) cs1

/-- The =([^&]+) tail after a matched key name: equals sign, then a
greedy nonempty run of non-ampersand characters. -/
def keyCaptureValue (r : List Char) : Option String :=
  match tryLit "=".data r with
  | none => none
  | some r2 =>
    let cap := r2.takeWhile (fun c => c != '&')
    if cap.isEmpty then none else some (String.mk cap)

/-- The (video_id|vid)=([^&]+) tail of the mobile-param pattern at one
position, with alternation backtracking. -/
def keyCaptureAt (cs : List Char) : Option String :=
  match tryLit "video_id".data cs with
  | some r =>
    match keyCaptureValue r with
    | some v => some v
    | none =>
      match tryLit "vid".data cs with
      | some r2 => keyCaptureValue r2
      | none => none
  | none =>
    match tryLit "vid".data cs with
    | some r2 => keyCaptureValue r2
    | none => none

/-- The .*/.*?.*(video_id|vid)=([^&]+) tail of the mobile-param pattern
after the .com/ literal: each greedy dot-star picks the last workable
position. -/
def afterComMatch : List Char → Option String :=
  lastPosMatch (fun cs =>
    match tryLit "/".data cs with
    | none => none
    | some r1 =>
      lastPosMatch (fun cs2 =>
        match tryLit "?".data cs2 with
        | none => none
        | some r2 => lastPosMatch keyCaptureAt r2) r1)

/-- Matcher at one position for the mobile-param pattern
https?://(www.)?(douyin|iesdouyin).com/.*/.*?.*(video_id|vid)=([^&]+),
with alternation backtracking between the two hosts. -/
def mobileParamAt (cs : List Char) : Option String :=
  match httpAt cs with
  | none => none
  | some cs1 =>
    wwwOpt (fun cs2 =>
      match
        (match tryLit "douyin".data cs2 with
         | some r =>
           match tryLit ".com/".data r with
           | some r2 => afterComMatch r2
           | none => none
         | none => none) with
      | some v => some v
      | none =>
        match tryLit "iesdouyin".data cs2 with
        | some r =>
          match tryLit ".com/".data r with
          | some r2 => afterComMatch r2
          | none => none
        | none => none) cs1

/-- LinkPattern (src/douyin/parser/link-patterns.ts lines 102-106): the
regex is represented by its executable matcher returning match[1]. -/
structure LinkPattern where
  name : String
  needsRedirect : Bool
  exec : String → Option String

/-- regex.test: the pattern matches somewhere in the url (every pattern
has a mandatory nonempty capture group, so a match always carries one). -/
def LinkPattern.test (p : LinkPattern) (url : String) : Bool := (p.exec url).isSome

/-- DOUYIN_LINK_PATTERNS (src/douyin/parser/link-patterns.ts lines
112-155), in source priority order. -/
def DOUYIN_LINK_PATTERNS : List LinkPattern :=
  [ { name := "standard", needsRedirect := false,
      exec := fun u => scanFirst (litDigitsAt "douyin.com/video/") u.data },
    { name := "short", needsRedirect := true,
      exec := fun u => scanFirst shortAt u.data },
    { name := "mobile", needsRedirect := true,
      exec := fun u => scanFirst (litDigitsAt "douyin.com/share/video/") u.data },
    { name := "note", needsRedirect := true,
      exec := fun u => scanFirst (litDigitsAt "douyin.com/note/") u.data },
    { name := "discover", needsRedirect := true,
      exec := fun u => scanFirst discoverAt u.data },
    { name := "webapp", needsRedirect := true,
      exec := fun u => scanFirst (litDigitsAt "douyin.com/webapp/") u.data },
    { name := "mobile-param", needsRedirect := true,
      exec := fun u => scanFirst mobileParamAt u.data } ]

/-- getLinkType (link-patterns.ts lines 180-190): first pattern whose
regex tests true. -/
def getLinkType (url : String) : Option LinkPattern :=
  DOUYIN_LINK_PATTERNS.find? (fun p => p.test url)

/-- The pattern loop of extractVideoId: first pattern with a (truthy)
capture. -/
def findFirstCapture : List LinkPattern → String → Option String
  | [], _ => none
  | p :: ps, url =>
    match p.exec url with
    | some v => some v
    | none => findFirstCapture ps url

/-- Scan to the character after the first question mark, if any. -/
def dropUntilQ : List Char → Option (List Char)
  | [] => none
  | '?' :: cs => some cs
  | _ :: cs => dropUntilQ cs

/-- The vid query parameter lookup in one ampersand-separated pair list. -/
def findVid : List (List Char) → Option String
  | [] => none
  | p :: ps =>
    if leadEq "vid=".data p then some (String.mk (p.drop 4))
    else findVid ps

/-- Model of new URL(url).searchParams.get on the vid key: requires a scheme
(otherwise the constructor throws and the code answers null), strips the
fragment, and looks the vid key up in the query (percent decoding is
immaterial for the inputs considered). -/
def urlVidParam (url : String) : Option String :=
  if strContains url "://" = false then none
  else
    match dropUntilQ (url.data.takeWhile (fun c => c != '#')) with
    | none => none
    | some q => findVid (q.splitOn '&')

/-- extractVideoId (link-patterns.ts lines 197-221): pattern loop first,
then the vid query-parameter fallback; the JavaScript truthiness check
makes an empty capture fall through to null. -/
def extractVideoId (url : String) : Option String :=
  match findFirstCapture DOUYIN_LINK_PATTERNS url with
  | some v => some v
  | none =>
    match urlVidParam url with
    | some v => if v = "" then none else some v
    | none => none

example : extractVideoId "https://www.douyin.com/video/7123456789" = some "7123456789" := by decide
example : extractVideoId "https://v.douyin.com/c-mY7xDr-qA/" = some "c-mY7xDr-qA" := by decide
example : extractVideoId "https://www.douyin.com/note/123456789" = some "123456789" := by decide
example : extractVideoId "https://www.douyin.com/discover?modal_id=7123456789" = some "7123456789" := by
  decide
example : extractVideoId "https://www.iesdouyin.com/share/video/777/?vid=12ab" = some "12ab" := by
  decide
example : extractVideoId "https://example.com/x" = none := by decide
example : (getLinkType "https://v.douyin.com/abc/").map (fun p => p.name) = some "short" := by decide
example : (getLinkType "https://www.douyin.com/video/7").map (fun p => p.name) = some "standard" := by
  decide

/-! ## src/douyin/parser/resolve-links.ts -/

/-- createStandardUrl (resolve-links.ts lines 19-21). -/
def createStandardUrl (videoId : String) : String :=
  "https://www.douyin.com/video/" ++ videoId

/-- resolveShortUrl (resolve-links.ts lines 29-73). The enhancedFetch
collaborator (redirect-following GET) is the deterministic parameter
fetch, giving the final response url or none for a network failure; a
failure makes withRetry exhaust and the catch answer null. When the final
url yields no video id but is an iesdouyin share url, the source fetches
the same short url again and returns that response url as is. -/
def resolveShortUrl (fetch : String → Option String) (shortUrl : String) : Option String :=
  match fetch shortUrl with
  | none => none
  | some finalUrl =>
    match extractVideoId finalUrl with
    | some videoId => some (createStandardUrl videoId)
    | none =>
      if strStartsWith finalUrl "https://www.iesdouyin.com/share/video/" then
        fetch shortUrl
      else none

/-- ParseResult type tag. -/
inductive LinkKind
  | video
  | user
  | unknown
  deriving DecidableEq, Repr

/-- ParseResult (types): id, canonical url, original url and kind. -/
structure ParseResult where
  id : String
  standardUrl : String
  originalUrl : String
  type : LinkKind
  deriving DecidableEq, Repr

/-- resolveLink (resolve-links.ts lines 81-144): classify the url, follow
the redirect path for needsRedirect patterns, re-extract the id, and build
the ParseResult; the kind is video exactly when the resolved url matches
the standard pattern. -/
def resolveLink (fetch : String → Option String) (url : String) : Option ParseResult :=
  match getLinkType url with
  | none => none
  | some linkType =>
    if linkType.needsRedirect then
      match resolveShortUrl fetch url with
      | none => none
      | some standardUrl =>
        match extractVideoId standardUrl with
        | none => none
        | some videoId =>
          let finalLinkType := getLinkType standardUrl
          some { id := videoId, standardUrl := standardUrl, originalUrl := url,
                 type := if finalLinkType.map (fun p => p.name) = some "standard" then .video
                   else .unknown }
    else
      match extractVideoId url with
      | none => none
      | some videoId =>
        let standardUrl := createStandardUrl videoId
        let finalLinkType := getLinkType standardUrl
        some { id := videoId, standardUrl := standardUrl, originalUrl := url,
               type := if finalLinkType.map (fun p => p.name) = some "standard" then .video
                 else .unknown }

/-- The fetch behaviour for the C3 counterexample: every request resolves
to an iesdouyin share url whose vid query parameter is not numeric. -/
def fetchC3 : String → Option String :=
  fun _ => some "https://www.iesdouyin.com/share/video/777/?vid=12ab"

example : resolveLink fetchC3 "https://v.douyin.com/abc/" =
    some { id := "12", standardUrl := "https://www.douyin.com/video/12ab",
           originalUrl := "https://v.douyin.com/abc/", type := .video } := by decide

/-- If the matcher succeeds at the current position, the leftmost scan
returns exactly that result. -/
theorem scanFirst_of_head (m : List Char → Option String) (cs : List Char) (v : String)
    (h : m cs = some v) : scanFirst m cs = some v := by
  cases cs with
  | nil => simpa [scanFirst] using h
  | cons c cs' => simp [scanFirst, h]

/-- A list all of whose elements satisfy p is its own takeWhile. -/
theorem takeWhile_of_all (p : Char → Bool) :
    ∀ ds : List Char, (∀ c ∈ ds, p c = true) → ds.takeWhile p = ds := by
  intro ds h
  induction ds with
  | nil => rfl
  | cons c cs ih =>
    have hc : p c = true := h c (by simp)
    simp only [List.takeWhile_cons, hc, if_true]
    rw [ih (fun x hx => h x (by simp [hx]))]

/-- Consuming a literal from an input that starts with it leaves the tail. -/
theorem tryLit_self (lit rest : List Char) : tryLit lit (lit ++ rest) = some rest := by
  have hlead : ∀ l r : List Char, leadEq l (l ++ r) = true := by
    intro l
    induction l with
    | nil => intro r; rfl
    | cons a as ih => intro r; simp [leadEq, ih]
  simp [tryLit, hlead, List.drop_left]

/-- The standard-pattern matcher applied at the head of a canonical video
url with remainder ds captures exactly what digitsCapture yields on ds,
when that capture succeeds. -/
theorem litDigitsAt_canonical (ds : List Char) (v : String) (h : digitsCapture ds = some v) :
    litDigitsAt "douyin.com/video/" ("https://www.douyin.com/video/".data ++ ds) = some v := by
  have h1 : httpAt ("https://www.douyin.com/video/".data ++ ds)
      = some ("www.douyin.com/video/".data ++ ds) := rfl
  have h2 : tryLit "www.".data ("www.douyin.com/video/".data ++ ds)
      = some ("douyin.com/video/".data ++ ds) := rfl
  have h3 : tryLit "douyin.com/video/".data ("douyin.com/video/".data ++ ds) = some ds := rfl
  simp only [litDigitsAt, h1, wwwOpt, h2, h3, h]

/-- On a canonical video url made of the standard literal head followed by
a nonempty digit string, extractVideoId answers that digit string. -/
theorem extractVideoId_canonical (id : String) (hne : id ≠ "")
    (hdig : ∀ c ∈ id.data, c.isDigit = true) :
    extractVideoId (createStandardUrl id) = some id := by
  have hdata : (createStandardUrl id).data = "https://www.douyin.com/video/".data ++ id.data := by
    simp [createStandardUrl, String.data_append]
  have hcap : digitsCapture id.data = some id := by
    unfold digitsCapture
    rw [takeWhile_of_all _ _ hdig]
    have : id.data.isEmpty = false := by
      cases hid : id.data with
      | nil => exact absurd (String.ext hid) hne
      | cons c cs => rfl
    simp only [this, Bool.false_eq_true, if_false]
  have hexec : scanFirst (litDigitsAt "douyin.com/video/") (createStandardUrl id).data
      = some id := by
    rw [hdata]
    exact scanFirst_of_head _ _ _ (litDigitsAt_canonical id.data id hcap)
  simp [extractVideoId, findFirstCapture, DOUYIN_LINK_PATTERNS, hexec]

/-- On such a canonical url, getLinkType answers the standard pattern (the
first of the list, which does not need a redirect). -/
theorem getLinkType_canonical (id : String) (hne : id ≠ "")
    (hdig : ∀ c ∈ id.data, c.isDigit = true) :
    getLinkType (createStandardUrl id) =
      some { name := "standard", needsRedirect := false,
             exec := fun u => scanFirst (litDigitsAt "douyin.com/video/") u.data } := by
  have hdata : (createStandardUrl id).data = "https://www.douyin.com/video/".data ++ id.data := by
    simp [createStandardUrl, String.data_append]
  have hcap : digitsCapture id.data = some id := by
    unfold digitsCapture
    rw [takeWhile_of_all _ _ hdig]
    have : id.data.isEmpty = false := by
      cases hid : id.data with
      | nil => exact absurd (String.ext hid) hne
      | cons c cs => rfl
    simp only [this, Bool.false_eq_true, if_false]
  have hexec : scanFirst (litDigitsAt "douyin.com/video/") (createStandardUrl id).data
      = some id := by
    rw [hdata]
    exact scanFirst_of_head _ _ _ (litDigitsAt_canonical id.data id hcap)
  simp [getLinkType, DOUYIN_LINK_PATTERNS, List.find?, LinkPattern.test, hexec]

/-- C4: already-canonical input is a fixed point of normalization — for
every nonempty all-digit id, resolveLink on https://www.douyin.com/video/
followed by id succeeds (under any fetch behaviour, which the direct
branch never consults) and returns that same url as standardUrl, with the
id and the video kind. -/
theorem resolveLink_canonical_fixed_point (fetch : String → Option String) (id : String)
    (hne : id ≠ "") (hdig : ∀ c ∈ id.data, c.isDigit = true) :
    resolveLink fetch (createStandardUrl id) =
      some { id := id, standardUrl := createStandardUrl id,
             originalUrl := createStandardUrl id, type := .video } := by
  have hlt := getLinkType_canonical id hne hdig
  have hex := extractVideoId_canonical id hne hdig
  simp [resolveLink, hlt, hex]

/-- Witness for C4 at the concrete canonical url with id 7123456789. -/
theorem resolveLink_canonical_fixed_point_witness :
    resolveLink (fun _ => none) (createStandardUrl "7123456789") =
      some { id := "7123456789", standardUrl := createStandardUrl "7123456789",
             originalUrl := createStandardUrl "7123456789", type := .video } :=
  resolveLink_canonical_fixed_point (fun _ => none) "7123456789" (by decide) (by decide)

/-- C3 counterexample: for the short link https://v.douyin.com/abc/ under
a redirect resolving to an iesdouyin share url whose vid parameter is the
non-numeric 12ab, resolveLink answers a non-null result whose standardUrl
is https://www.douyin.com/video/12ab while its id is the re-extracted 12 —
so standardUrl differs from the canonical url derived from the id. -/
theorem resolveLink_standardUrl_counterexample :
    resolveLink fetchC3 "https://v.douyin.com/abc/" =
      some { id := "12", standardUrl := "https://www.douyin.com/video/12ab",
             originalUrl := "https://v.douyin.com/abc/", type := .video }
    ∧ "https://www.douyin.com/video/12ab" ≠ createStandardUrl "12" :=
  ⟨by decide, by decide⟩

/-- C3 amended: every non-null resolveLink result has a standardUrl of the
shape https://www.douyin.com/video/ followed by the id extracted during
resolution, and for every input whose matched pattern needs no redirect
(direct standard links) the standardUrl is exactly the canonical url of
the ParseResult id; for redirect-resolved inputs the two can differ when
the redirect-phase id is not purely numeric. -/
theorem resolveLink_standardUrl_amended (fetch : String → Option String) (url : String)
    (r : ParseResult) (h : resolveLink fetch url = some r) :
    (∃ v, r.standardUrl = createStandardUrl v)
    ∧ (∀ pat, getLinkType url = some pat → pat.needsRedirect = false →
        r.standardUrl = createStandardUrl r.id) := by
  unfold resolveLink at h
  cases hlt : getLinkType url with
  | none => simp only [hlt] at h; exact Option.noConfusion h
  | some pat =>
    simp only [hlt] at h
    by_cases hnr : pat.needsRedirect = true
    · rw [if_pos hnr] at h
      cases hsu : resolveShortUrl fetch url with
      | none => simp only [hsu] at h; exact Option.noConfusion h
      | some su =>
        simp only [hsu] at h
        cases hev : extractVideoId su with
        | none => simp only [hev] at h; exact Option.noConfusion h
        | some vid =>
          simp only [hev, Option.some.injEq] at h
          subst h
          constructor
          · unfold resolveShortUrl at hsu
            cases hf : fetch url with
            | none => simp only [hf] at hsu; exact Option.noConfusion hsu
            | some finalUrl =>
              simp only [hf] at hsu
              cases hev2 : extractVideoId finalUrl with
              | some w =>
                simp only [hev2, Option.some.injEq] at hsu
                exact ⟨w, by simp [← hsu]⟩
              | none =>
                simp only [hev2] at hsu
                by_cases hies : strStartsWith finalUrl "https://www.iesdouyin.com/share/video/" = true
                · rw [if_pos hies] at hsu
                  simp only [Option.some.injEq] at hsu
                  subst hsu
                  rw [hev2] at hev
                  exact absurd hev (by simp)
                · rw [if_neg hies] at hsu
                  exact absurd hsu (by simp)
          · intro pat' hpat' hnr'
            simp only [Option.some.injEq] at hpat'
            subst hpat'
            rw [hnr] at hnr'
            exact absurd hnr' (by simp)
    · simp only [Bool.not_eq_true] at hnr
      rw [hnr] at h
      simp only [Bool.false_eq_true, if_false] at h
      cases hev : extractVideoId url with
      | none => simp only [hev] at h; exact Option.noConfusion h
      | some vid =>
        simp only [hev, Option.some.injEq] at h
        subst h
        exact ⟨⟨vid, rfl⟩, fun _ _ _ => rfl⟩

/-- Witness for C3 amended at a concrete direct canonical url. -/
theorem resolveLink_standardUrl_amended_witness :
    (∃ v, ("https://www.douyin.com/video/42" : String) = createStandardUrl v)
    ∧ ("https://www.douyin.com/video/42" : String) = createStandardUrl "42" := by
  have h := resolveLink_standardUrl_amended (fun _ => none) "https://www.douyin.com/video/42"
    { id := "42", standardUrl := "https://www.douyin.com/video/42",
      originalUrl := "https://www.douyin.com/video/42", type := .video } (by decide)
  have hpat := getLinkType_canonical "42" (by decide) (by decide)
  exact ⟨h.1, h.2 _ hpat rfl⟩

/-! ## src/download/video-downloader.ts

The filesystem collaborator is a map from paths to file kinds plus a log
of downloadFile invocations (by url, for accounting of attempts). The
downloadFile primitive (src/utils/file.ts, not part of the sources) is an
external collaborator whose behaviour per url and per attempt is a
parameter: it may succeed and write the destination file, or fail leaving
either a partial file or nothing. formatOutputPath is likewise treated as
an opaque collaborator parameter (it depends on sanitize-filename and the
clock); only its argument that matters here — the stat of the destination
path — is passed to it. -/

/-- What a path is on the modelled filesystem. -/
inductive FKind
  | file
  | dir
  deriving DecidableEq, Repr

/-- Filesystem state plus the download-invocation log. -/
structure FS where
  files : String → Option FKind
  calls : List String

/-- fs.stat. -/
def FS.stat (s : FS) (p : String) : Option FKind := s.files p

/-- fs.pathExists. -/
def FS.pathExists (s : FS) (p : String) : Bool := (s.files p).isSome

/-- A successful write of the destination file. -/
def FS.setFile (s : FS) (p : String) : FS :=
  { s with files := fun q => if q = p then some .file else s.files q }

/-- fs.unlink (when it succeeds). -/
def FS.removePath (s : FS) (p : String) : FS :=
  { s with files := fun q => if q = p then none else s.files q }

/-- ensureDirectoryExists: create the directory entry when absent. -/
def FS.addDir (s : FS) (p : String) : FS :=
  if (s.files p).isSome then s
  else { s with files := fun q => if q = p then some .dir else s.files q }

/-- Record one downloadFile invocation in the log. -/
def FS.logCall (s : FS) (url : String) : FS := { s with calls := s.calls ++ [url] }

/-- Model of path.dirname (posix): strip trailing separators, drop the
last component and its separators; empty means root or dot. -/
def dirname (p : String) : String :=
  let r := p.data.reverse
  let r1 := r.dropWhile (fun c => c == '/')
  let r2 := r1.dropWhile (fun c => c != '/')
  let r3 := r2.dropWhile (fun c => c == '/')
  if r3.isEmpty then (if strStartsWith p "/" then "/" else ".")
  else String.mk r3.reverse

example : dirname "/out/v.mp4" = "/out" := by decide
example : dirname "/out" = "/" := by decide
example : dirname "a" = "." := by decide
example : dirname "/" = "/" := by decide

/-- DownloadError data (download/error-handler.ts lines 14-38):
non-DownloadError exceptions carry isDownloadError = false and their
retryable field is ignored. -/
structure DLErr where
  isDownloadError : Bool
  retryable : Bool
  code : String
  message : String
  deriving DecidableEq, Repr

/-- Outcome of one downloadFile attempt: success, or failure optionally
leaving a partially written destination file behind. -/
inductive DLAttempt
  | ok
  | fail (keepFile : Bool) (err : DLErr)
  deriving DecidableEq, Repr

/-- How many attempts were already made against one url. -/
def countCalls (calls : List String) (url : String) : Nat :=
  (calls.filter (fun u => u == url)).length

/-- The downloadFile collaborator: behaviour beh decides the outcome of
the k-th attempt against a url; a success writes the destination file, a
failure may leave a partial file. -/
def downloadFile (beh : String → Nat → DLAttempt) (url path : String) (s : FS) :
    Except DLErr Unit × FS :=
  let k := countCalls s.calls url
  let s1 := s.logCall url
  match beh url k with
  | .ok => (.ok (), s1.setFile path)
  | .fail keepFile e => (.error e, if keepFile then s1.setFile path else s1)

/-- The withRetry loop of utils/retry.ts threaded through the filesystem
state (each attempt reruns the same closure against the changed world).
fuel is the number of retries still allowed; with no fuel left the source
checks shouldRetry and the attempt bound in turn but rethrows the error
either way, so the zero case returns it directly. -/
def withRetryFS (fn : FS → Except DLErr Unit × FS) (shouldRetry : DLErr → Bool) :
    Nat → FS → Except DLErr Unit × FS
  | 0, s =>
    match fn s with
    | (.ok a, s1) => (.ok a, s1)
    | (.error e, s1) => (.error e, s1)
  | f + 1, s =>
    match fn s with
    | (.ok a, s1) => (.ok a, s1)
    | (.error e, s1) =>
      if shouldRetry e = false then (.error e, s1)
      else withRetryFS fn shouldRetry f s1

/-- The shouldRetry passed by downloadVideo to withRetry (part of
video-downloader.ts lines 172-178): DownloadError consults its retryable
flag, anything else is retried. -/
def downloadShouldRetry (e : DLErr) : Bool :=
  if e.isDownloadError then e.retryable else true

/-- getDownloadErrorMessage (download/error-handler.ts lines 180-207). -/
def getDownloadErrorMessage (e : DLErr) : String :=
  if e.isDownloadError then e.message
  else
    let message := strToLower e.message
    if strContains message "timeout" || strContains message "timed out" then
      "下載超時，請檢查網絡連接或稍後再試"
    else if strContains message "404" || strContains message "not found" then
      "影片資源不存在或已被移除"
    else if strContains message "403" || strContains message "forbidden" then
      "無權訪問此影片資源，可能需要登入或權限"
    else if strContains message "429" || strContains message "too many requests" then
      "下載請求過於頻繁，請稍後再試"
    else "下載影片時發生錯誤: " ++ e.message

/-- VideoInfo fields used by downloadVideo. -/
structure VideoInfo where
  id : String
  title : String
  userName : String
  videoPlayUrl : String
  deriving DecidableEq, Repr

/-- The finalPath determination ladder of downloadVideo
(video-downloader.ts lines 72-116): existing directory or trailing
separator or missing parent give the formatted path, an existing file or
a missing path under an existing parent is used as given. -/
def computeFinalPath (fmt : Option FKind → String) (destPath : String) (s : FS) : String :=
  match s.stat destPath with
  | some .dir => fmt (some .dir)
  | some .file => destPath
  | none =>
    if strEndsWith destPath "/" then fmt none
    else
      let parentDir := dirname destPath
      let parentDirExists :=
        if parentDir ≠ "" ∧ parentDir ≠ destPath then s.stat parentDir == some FKind.dir
        else parentDir == dirname parentDir
      if parentDirExists then destPath else fmt none

/-- Outcome of the try block of downloadVideo: either a returned result
(the cache hit or the successful download), or control passing to the
catch block with the thrown error, the current finalPath and the state. -/
inductive TryOut
  | done (r : Except DLErr String × FS)
  | caught (e : DLErr) (finalPath : String) (s : FS)

/-- The try block of downloadVideo (video-downloader.ts lines 59-183):
reject an empty play url (finalPath still empty), determine finalPath,
ensure its parent directory, honour the cache-hit short circuit, then
download under withRetry. -/
def downloadVideoTry (beh : String → Nat → DLAttempt) (fmt : Option FKind → String)
    (videoInfo : VideoInfo) (destPath : String) (retries : Nat)
    (checkExisting overwrite : Bool) (s0 : FS) : TryOut :=
  if videoInfo.videoPlayUrl = "" then
    .caught { isDownloadError := true, retryable := false, code := "INVALID_URL",
              message := "影片 " ++ videoInfo.id ++ " 無有效的播放 URL" } "" s0
  else
    let finalPath := computeFinalPath fmt destPath s0
    let s1 := s0.addDir (dirname finalPath)
    if checkExisting = true ∧ s1.pathExists finalPath = true ∧ overwrite = false then
      .done (.ok finalPath, s1)
    else
      match withRetryFS (downloadFile beh videoInfo.videoPlayUrl finalPath)
          downloadShouldRetry retries s1 with
      | (.ok _, s2) => .done (.ok finalPath, s2)
      | (.error e, s2) => .caught e finalPath s2

/-- The partial-file deletion of the catch block (video-downloader.ts
lines 190-202): delete finalPath when present; a deletion failure is
swallowed (only logged). -/
def unlinkPartial (unlinkOk : String → FS → Bool) (finalPath : String) (s : FS) : FS :=
  if s.pathExists finalPath = true then
    (if unlinkOk finalPath s = true then s.removePath finalPath else s)
  else s

/-- downloadVideo (video-downloader.ts lines 39-221): run the try block;
on a caught error delete the partial file, then either recurse on the
next fallback url with the remaining list and the same options, or
surface a DownloadError with code DOWNLOAD_FAILED built from the original
error message. -/
def downloadVideo (beh : String → Nat → DLAttempt) (unlinkOk : String → FS → Bool)
    (fmt : Option FKind → String) (videoInfo : VideoInfo) (destPath : String)
    (retries : Nat) (checkExisting overwrite : Bool) :
    List String → FS → Except DLErr String × FS
  | [], s0 =>
    match downloadVideoTry beh fmt videoInfo destPath retries checkExisting overwrite s0 with
    | .done r => r
    | .caught e finalPath s2 =>
      (.error { isDownloadError := true, retryable := false, code := "DOWNLOAD_FAILED",
                message := getDownloadErrorMessage e }, unlinkPartial unlinkOk finalPath s2)
  | nextUrl :: remainingUrls, s0 =>
    match downloadVideoTry beh fmt videoInfo destPath retries checkExisting overwrite s0 with
    | .done r => r
    | .caught _e finalPath s2 =>
      downloadVideo beh unlinkOk fmt { videoInfo with videoPlayUrl := nextUrl } destPath
        retries checkExisting overwrite remainingUrls (unlinkPartial unlinkOk finalPath s2)

/-- downloadFile only ever creates the destination file. -/
theorem downloadFile_files_le (beh : String → Nat → DLAttempt) (url path : String) (s : FS)
    (p : String) (h : ((downloadFile beh url path s).2).files p = some FKind.file) :
    s.files p = some FKind.file ∨ p = path := by
  unfold downloadFile at h
  cases hb : beh url (countCalls s.calls url) with
  | ok =>
    simp only [hb, FS.setFile, FS.logCall] at h
    by_cases hp : p = path
    · exact Or.inr hp
    · rw [if_neg hp] at h
      exact Or.inl h
  | fail keepFile e =>
    simp only [hb] at h
    cases keepFile with
    | true =>
      simp only [FS.setFile, FS.logCall, if_true] at h
      by_cases hp : p = path
      · exact Or.inr hp
      · rw [if_neg hp] at h
        exact Or.inl h
    | false =>
      simp only [FS.logCall, if_false] at h
      exact Or.inl h

/-- A successful attempt ends the retry loop at any fuel. -/
theorem withRetryFS_step_ok (fn : FS → Except DLErr Unit × FS) (sr : DLErr → Bool)
    (fuel : Nat) (s : FS) (a : Unit) (s1 : FS) (hfn : fn s = (.ok a, s1)) :
    withRetryFS fn sr fuel s = (.ok a, s1) := by
  cases fuel <;> simp [withRetryFS, hfn]

/-- At exhausted fuel a failing attempt is final. -/
theorem withRetryFS_zero_err (fn : FS → Except DLErr Unit × FS) (sr : DLErr → Bool)
    (s : FS) (e : DLErr) (s1 : FS) (hfn : fn s = (.error e, s1)) :
    withRetryFS fn sr 0 s = (.error e, s1) := by
  simp [withRetryFS, hfn]

/-- With fuel left, a failing attempt retries unless vetoed. -/
theorem withRetryFS_succ_err (fn : FS → Except DLErr Unit × FS) (sr : DLErr → Bool)
    (f : Nat) (s : FS) (e : DLErr) (s1 : FS) (hfn : fn s = (.error e, s1)) :
    withRetryFS fn sr (f + 1) s =
      if sr e = false then (.error e, s1) else withRetryFS fn sr f s1 := by
  simp [withRetryFS, hfn]

/-- The retried download only ever creates the destination file. -/
theorem withRetryFS_files_le (beh : String → Nat → DLAttempt) (url path : String)
    (sr : DLErr → Bool) :
    ∀ (fuel : Nat) (s : FS) (p : String),
      ((withRetryFS (downloadFile beh url path) sr fuel s).2).files p = some FKind.file →
      s.files p = some FKind.file ∨ p = path := by
  intro fuel
  induction fuel with
  | zero =>
    intro s p h
    rcases hfn : downloadFile beh url path s with ⟨res, s1⟩
    have hs1 : s1.files p = some FKind.file → s.files p = some FKind.file ∨ p = path := by
      intro hh
      exact downloadFile_files_le beh url path s p (by rw [hfn]; exact hh)
    cases res with
    | ok a =>
      rw [withRetryFS_step_ok _ _ _ _ _ _ hfn] at h
      exact hs1 h
    | error e =>
      rw [withRetryFS_zero_err _ _ _ _ _ hfn] at h
      exact hs1 h
  | succ f ih =>
    intro s p h
    rcases hfn : downloadFile beh url path s with ⟨res, s1⟩
    have hs1 : s1.files p = some FKind.file → s.files p = some FKind.file ∨ p = path := by
      intro hh
      exact downloadFile_files_le beh url path s p (by rw [hfn]; exact hh)
    cases res with
    | ok a =>
      rw [withRetryFS_step_ok _ _ _ _ _ _ hfn] at h
      exact hs1 h
    | error e =>
      rw [withRetryFS_succ_err _ _ _ _ _ _ hfn] at h
      by_cases hsr : sr e = false
      · rw [if_pos hsr] at h
        exact hs1 h
      · rw [if_neg hsr] at h
        cases ih s1 p h with
        | inl hl => exact hs1 hl
        | inr hr => exact Or.inr hr

/-- ensureDirectoryExists never creates file entries. -/
theorem addDir_files_le (s : FS) (d p : String)
    (h : ((s.addDir d).files p = some FKind.file)) : s.files p = some FKind.file := by
  unfold FS.addDir at h
  by_cases hd : (s.files d).isSome = true
  · rw [if_pos hd] at h
    exact h
  · rw [if_neg hd] at h
    simp only at h
    by_cases hp : p = d
    · rw [if_pos hp] at h
      exact absurd h (by simp)
    · rw [if_neg hp] at h
      exact h

/-- A successful unlink only removes. -/
theorem removePath_files (s : FS) (q p : String)
    (h : ((s.removePath q).files p = some FKind.file)) :
    s.files p = some FKind.file ∧ p ≠ q := by
  simp only [FS.removePath] at h
  by_cases hp : p = q
  · rw [if_pos hp] at h
    exact absurd h (by simp)
  · rw [if_neg hp] at h
    exact ⟨h, hp⟩

/-- The catch-block deletion never adds files. -/
theorem unlinkPartial_files_le (u : String → FS → Bool) (fp : String) (s : FS) (p : String)
    (h : ((unlinkPartial u fp s).files p = some FKind.file)) : s.files p = some FKind.file := by
  unfold unlinkPartial at h
  by_cases he : s.pathExists fp = true
  · rw [if_pos he] at h
    by_cases hu : u fp s = true
    · rw [if_pos hu] at h
      exact (removePath_files s fp p h).1
    · rw [if_neg hu] at h
      exact h
  · rw [if_neg he] at h
    exact h

/-- The try block of downloadVideo only ever creates the file at the
finalPath it passes to the catch block; a caught state has no other new
files. -/
theorem downloadVideoTry_caught_files_le (beh : String → Nat → DLAttempt)
    (fmt : Option FKind → String) (vi : VideoInfo) (dp : String) (r : Nat) (ce ow : Bool)
    (s0 : FS) (e : DLErr) (fp : String) (s2 : FS)
    (h : downloadVideoTry beh fmt vi dp r ce ow s0 = .caught e fp s2) :
    ∀ p, s2.files p = some FKind.file → s0.files p = some FKind.file ∨ p = fp := by
  intro p hp
  unfold downloadVideoTry at h
  by_cases hv : vi.videoPlayUrl = ""
  · rw [if_pos hv] at h
    cases h
    exact Or.inl hp
  · rw [if_neg hv] at h
    simp only at h
    by_cases hce : ce = true ∧
        (s0.addDir (dirname (computeFinalPath fmt dp s0))).pathExists
          (computeFinalPath fmt dp s0) = true ∧ ow = false
    · rw [if_pos hce] at h
      exact absurd h (by simp)
    · rw [if_neg hce] at h
      rcases hw : withRetryFS (downloadFile beh vi.videoPlayUrl (computeFinalPath fmt dp s0))
          downloadShouldRetry r (s0.addDir (dirname (computeFinalPath fmt dp s0))) with ⟨res, s3⟩
      rw [hw] at h
      cases res with
      | ok a => exact absurd h (by simp)
      | error e2 =>
        simp only [TryOut.caught.injEq] at h
        obtain ⟨he, hfp, hs⟩ := h
        subst he; subst hfp; subst hs
        have := withRetryFS_files_le beh vi.videoPlayUrl (computeFinalPath fmt dp s0)
          downloadShouldRetry r (s0.addDir (dirname (computeFinalPath fmt dp s0))) p
          (by rw [hw]; exact hp)
        cases this with
        | inl hl => exact Or.inl (addDir_files_le _ _ _ hl)
        | inr hr => exact Or.inr hr

/-- The try block never returns an error directly: a done outcome is a
successful path. -/
theorem downloadVideoTry_done_ok (beh : String → Nat → DLAttempt)
    (fmt : Option FKind → String) (vi : VideoInfo) (dp : String) (r : Nat) (ce ow : Bool)
    (s0 : FS) (res : Except DLErr String × FS)
    (h : downloadVideoTry beh fmt vi dp r ce ow s0 = .done res) :
    ∃ fp, res.1 = .ok fp := by
  unfold downloadVideoTry at h
  by_cases hv : vi.videoPlayUrl = ""
  · rw [if_pos hv] at h
    exact absurd h (by simp)
  · rw [if_neg hv] at h
    simp only at h
    by_cases hce : ce = true ∧
        (s0.addDir (dirname (computeFinalPath fmt dp s0))).pathExists
          (computeFinalPath fmt dp s0) = true ∧ ow = false
    · rw [if_pos hce] at h
      simp only [TryOut.done.injEq] at h
      exact ⟨computeFinalPath fmt dp s0, by rw [← h]⟩
    · rw [if_neg hce] at h
      rcases hw : withRetryFS (downloadFile beh vi.videoPlayUrl (computeFinalPath fmt dp s0))
          downloadShouldRetry r (s0.addDir (dirname (computeFinalPath fmt dp s0))) with ⟨rr, s3⟩
      rw [hw] at h
      cases rr with
      | ok a =>
        simp only [TryOut.done.injEq] at h
        exact ⟨computeFinalPath fmt dp s0, by rw [← h]⟩
      | error e2 => exact absurd h (by simp)

/-- With a working unlink, the catch-block deletion leaves no file at
finalPath. -/
theorem unlinkPartial_removes (u : String → FS → Bool) (fp : String) (s : FS)
    (hu : u fp s = true) : (unlinkPartial u fp s).files fp ≠ some FKind.file := by
  unfold unlinkPartial
  by_cases he : s.pathExists fp = true
  · rw [if_pos he, if_pos hu]
    simp [FS.removePath]
  · rw [if_neg he]
    unfold FS.pathExists at he
    intro hc
    rw [hc] at he
    exact he rfl

/-- Every error surfaced by downloadVideo is the final DownloadError with
code DOWNLOAD_FAILED, marked non-retryable. -/
theorem downloadVideo_error_code (beh : String → Nat → DLAttempt)
    (unlinkOk : String → FS → Bool) (fmt : Option FKind → String) (dp : String) (r : Nat)
    (ce ow : Bool) :
    ∀ (urls : List String) (vi : VideoInfo) (s0 : FS) (e : DLErr) (s1 : FS),
      downloadVideo beh unlinkOk fmt vi dp r ce ow urls s0 = (.error e, s1) →
      e.code = "DOWNLOAD_FAILED" ∧ e.isDownloadError = true ∧ e.retryable = false := by
  intro urls
  induction urls with
  | nil =>
    intro vi s0 e s1 h
    cases ht : downloadVideoTry beh fmt vi dp r ce ow s0 with
    | done res =>
      simp only [downloadVideo, ht] at h
      obtain ⟨fp0, hok⟩ := downloadVideoTry_done_ok beh fmt vi dp r ce ow s0 res ht
      rw [h] at hok
      exact absurd hok (by simp)
    | caught e2 fp s2 =>
      simp only [downloadVideo, ht, Prod.mk.injEq, Except.error.injEq] at h
      rw [← h.1]
      exact ⟨rfl, rfl, rfl⟩
  | cons u rest ih =>
    intro vi s0 e s1 h
    cases ht : downloadVideoTry beh fmt vi dp r ce ow s0 with
    | done res =>
      simp only [downloadVideo, ht] at h
      obtain ⟨fp0, hok⟩ := downloadVideoTry_done_ok beh fmt vi dp r ce ow s0 res ht
      rw [h] at hok
      exact absurd hok (by simp)
    | caught e2 fp s2 =>
      simp only [downloadVideo, ht] at h
      exact ih _ _ _ _ h

/-- With a working unlink, a failed downloadVideo run creates no new file
anywhere: every file of the final state already existed initially. -/
theorem downloadVideo_cleanup (beh : String → Nat → DLAttempt)
    (unlinkOk : String → FS → Bool) (fmt : Option FKind → String) (dp : String) (r : Nat)
    (ce ow : Bool) (hu : ∀ p s, unlinkOk p s = true) :
    ∀ (urls : List String) (vi : VideoInfo) (s0 : FS) (e : DLErr) (s1 : FS),
      downloadVideo beh unlinkOk fmt vi dp r ce ow urls s0 = (.error e, s1) →
      ∀ p, s1.files p = some FKind.file → s0.files p = some FKind.file := by
  intro urls
  induction urls with
  | nil =>
    intro vi s0 e s1 h p hp
    cases ht : downloadVideoTry beh fmt vi dp r ce ow s0 with
    | done res =>
      simp only [downloadVideo, ht] at h
      obtain ⟨fp0, hok⟩ := downloadVideoTry_done_ok beh fmt vi dp r ce ow s0 res ht
      rw [h] at hok
      exact absurd hok (by simp)
    | caught e2 fp s2 =>
      simp only [downloadVideo, ht, Prod.mk.injEq] at h
      rw [← h.2] at hp
      by_cases hpfp : p = fp
      · rw [hpfp] at hp
        exact absurd hp (unlinkPartial_removes unlinkOk fp s2 (hu fp s2))
      · have hs2 := unlinkPartial_files_le unlinkOk fp s2 p hp
        cases downloadVideoTry_caught_files_le beh fmt vi dp r ce ow s0 e2 fp s2 ht p hs2 with
        | inl hl => exact hl
        | inr hr => exact absurd hr hpfp
  | cons u rest ih =>
    intro vi s0 e s1 h p hp
    cases ht : downloadVideoTry beh fmt vi dp r ce ow s0 with
    | done res =>
      simp only [downloadVideo, ht] at h
      obtain ⟨fp0, hok⟩ := downloadVideoTry_done_ok beh fmt vi dp r ce ow s0 res ht
      rw [h] at hok
      exact absurd hok (by simp)
    | caught e2 fp s2 =>
      simp only [downloadVideo, ht] at h
      have hmid := ih _ _ _ _ h p hp
      by_cases hpfp : p = fp
      · rw [hpfp] at hmid
        exact absurd hmid (unlinkPartial_removes unlinkOk fp s2 (hu fp s2))
      · have hs2 := unlinkPartial_files_le unlinkOk fp s2 p hmid
        cases downloadVideoTry_caught_files_le beh fmt vi dp r ce ow s0 e2 fp s2 ht p hs2 with
        | inl hl => exact hl
        | inr hr => exact absurd hr hpfp

/-- Within one level (no fallbacks), the returned value of downloadVideo
does not depend on whether the partial-file deletion succeeds: a deletion
failure only changes the filesystem, never the surfaced error. -/
theorem downloadVideo_nil_unlink_indep (beh : String → Nat → DLAttempt)
    (fmt : Option FKind → String) (vi : VideoInfo) (dp : String) (r : Nat) (ce ow : Bool)
    (u1 u2 : String → FS → Bool) (s : FS) :
    (downloadVideo beh u1 fmt vi dp r ce ow [] s).1
      = (downloadVideo beh u2 fmt vi dp r ce ow [] s).1 := by
  cases ht : downloadVideoTry beh fmt vi dp r ce ow s with
  | done res => simp [downloadVideo, ht]
  | caught e fp s2 => simp [downloadVideo, ht]

/-- C8: whenever downloadVideo returns an error (all attempts and
fallbacks exhausted), the surfaced error is the DownloadError with code
DOWNLOAD_FAILED built from the original download error; when the deletion
collaborator works, the partially-written files have all been removed (no
file exists in the final state that did not exist initially); and a
failing deletion is swallowed — within a level the surfaced value is the
same under any deletion behaviour. -/
theorem downloadVideo_failure_cleanup (beh : String → Nat → DLAttempt)
    (unlinkOk : String → FS → Bool) (fmt : Option FKind → String) (vi : VideoInfo)
    (dp : String) (r : Nat) (ce ow : Bool) (urls : List String) (s0 : FS) (e : DLErr) (s1 : FS)
    (h : downloadVideo beh unlinkOk fmt vi dp r ce ow urls s0 = (.error e, s1)) :
    (e.code = "DOWNLOAD_FAILED" ∧ e.isDownloadError = true ∧ e.retryable = false)
    ∧ ((∀ p s, unlinkOk p s = true) →
        ∀ p, s1.files p = some FKind.file → s0.files p = some FKind.file)
    ∧ (∀ (u2 : String → FS → Bool) (s : FS),
        (downloadVideo beh u2 fmt vi dp r ce ow [] s).1
          = (downloadVideo beh unlinkOk fmt vi dp r ce ow [] s).1) :=
  ⟨downloadVideo_error_code beh unlinkOk fmt dp r ce ow urls vi s0 e s1 h,
   fun hu => downloadVideo_cleanup beh unlinkOk fmt dp r ce ow hu urls vi s0 e s1 h,
   fun u2 s => downloadVideo_nil_unlink_indep beh fmt vi dp r ce ow u2 unlinkOk s⟩

/-- downloadFile behaviour for the C8 witness: every attempt fails and
leaves a partial file behind. -/
def behFailC8 : String → Nat → DLAttempt :=
  fun _ _ => .fail true { isDownloadError := false, retryable := true, code := "",
                          message := "connection lost" }

/-- Initial filesystem for the download witnesses: only the output
directory exists. -/
def fsOutOnly : FS := { files := fun q => if q = "/out" then some FKind.dir else none,
                        calls := [] }

/-- The video record used by the download witnesses. -/
def viC8 : VideoInfo := { id := "v1", title := "t", userName := "u",
                          videoPlayUrl := "http://cdn/a" }

/-- The error surfaced in the C8 witness run. -/
def eC8 : DLErr := { isDownloadError := true, retryable := false, code := "DOWNLOAD_FAILED",
                     message := "下載影片時發生錯誤: connection lost" }

/-- Witness for C8: a concrete run (always-failing download with partial
files, one retry, no fallbacks) surfaces exactly the DOWNLOAD_FAILED
error. -/
theorem downloadVideo_failure_cleanup_witness :
    eC8.code = "DOWNLOAD_FAILED" ∧ eC8.isDownloadError = true ∧ eC8.retryable = false := by
  have h1 : (downloadVideo behFailC8 (fun _ _ => true) (fun _ => "/out/f.mp4") viC8
      "/out/v.mp4" 1 true false [] fsOutOnly).1 = .error eC8 := rfl
  have h : downloadVideo behFailC8 (fun _ _ => true) (fun _ => "/out/f.mp4") viC8
      "/out/v.mp4" 1 true false [] fsOutOnly
      = (.error eC8, (downloadVideo behFailC8 (fun _ _ => true) (fun _ => "/out/f.mp4") viC8
          "/out/v.mp4" 1 true false [] fsOutOnly).2) := by
    rw [← h1]
  exact (downloadVideo_failure_cleanup behFailC8 (fun _ _ => true) (fun _ => "/out/f.mp4")
    viC8 "/out/v.mp4" 1 true false [] fsOutOnly eC8 _ h).1


/-- The network error used by the always-failing primary url. -/
def netErrC9 : DLErr :=
  { isDownloadError := false, retryable := true, code := "", message := "network error" }

/-- downloadFile behaviour for the fallback scenario: the primary url p
always fails cleanly, every other url succeeds. -/
def behPrimaryFails (p : String) : String → Nat → DLAttempt :=
  fun u _ => if u = p then .fail false netErrC9 else .ok

/-- The video record used by the fallback scenario, with the primary url. -/
def viC9 (p : String) : VideoInfo :=
  { id := "v1", title := "t", userName := "u", videoPlayUrl := p }

/-- The state after the primary url has exhausted its retry budget. -/
def fsMid (retries : Nat) (p : String) : FS :=
  { files := fsOutOnly.files, calls := List.replicate (retries + 1) p }

/-- The state after the fallback url succeeded. -/
def fsFin (retries : Nat) (p f : String) : FS :=
  ((fsMid retries p).logCall f).setFile "/out/v.mp4"

example (fmt : Option FKind → String) :
    computeFinalPath fmt "/out/v.mp4" fsOutOnly = "/out/v.mp4" := rfl
example (fmt : Option FKind → String) (retries : Nat) (p : String) :
    computeFinalPath fmt "/out/v.mp4" (fsMid retries p) = "/out/v.mp4" := rfl
example : fsOutOnly.addDir "/out" = fsOutOnly := rfl

/-- Against the always-failing primary, the retry loop consumes all its
fuel, logging one attempt per unit plus the initial one, and leaves the
files untouched. -/
theorem withRetryFS_primary_fails (p path : String) :
    ∀ (fuel : Nat) (s : FS),
      withRetryFS (downloadFile (behPrimaryFails p) p path) downloadShouldRetry fuel s
        = (.error netErrC9, { s with calls := s.calls ++ List.replicate (fuel + 1) p }) := by
  intro fuel
  induction fuel with
  | zero =>
    intro s
    have hfn : downloadFile (behPrimaryFails p) p path s = (.error netErrC9, s.logCall p) := by
      simp [downloadFile, behPrimaryFails]
    rw [withRetryFS_zero_err _ _ _ _ _ hfn]
    simp [FS.logCall, List.replicate]
  | succ fu ih =>
    intro s
    have hfn : downloadFile (behPrimaryFails p) p path s = (.error netErrC9, s.logCall p) := by
      simp [downloadFile, behPrimaryFails]
    rw [withRetryFS_succ_err _ _ _ _ _ _ hfn]
    rw [if_neg (by decide : ¬(downloadShouldRetry netErrC9 = false))]
    rw [ih (s.logCall p)]
    simp [FS.logCall, List.replicate_succ, List.append_assoc]

/-- The try block against the failing primary ends in the catch with the
network error, the destination path, and the attempt log filled. -/
theorem downloadVideoTry_primary (retries : Nat) (p : String) (hp : p ≠ "")
    (fmt : Option FKind → String) :
    downloadVideoTry (behPrimaryFails p) fmt (viC9 p) "/out/v.mp4" retries true false fsOutOnly
      = .caught netErrC9 "/out/v.mp4" (fsMid retries p) := by
  have h1 : withRetryFS
      (downloadFile (behPrimaryFails p) (viC9 p).videoPlayUrl
        (computeFinalPath fmt "/out/v.mp4" fsOutOnly))
      downloadShouldRetry retries
      (fsOutOnly.addDir (dirname (computeFinalPath fmt "/out/v.mp4" fsOutOnly)))
      = (.error netErrC9, fsMid retries p) :=
    withRetryFS_primary_fails p "/out/v.mp4" retries fsOutOnly
  have hpe : (fsOutOnly.addDir (dirname (computeFinalPath fmt "/out/v.mp4" fsOutOnly))).pathExists
      (computeFinalPath fmt "/out/v.mp4" fsOutOnly) = false := rfl
  unfold downloadVideoTry
  rw [if_neg (show ¬((viC9 p).videoPlayUrl = "") from hp)]
  simp only [h1]
  rw [if_neg (by simp [hpe])]
  rfl

/-- The try block against the succeeding fallback returns the final path
and state. -/
theorem downloadVideoTry_fallback (retries : Nat) (p f : String) (hf : f ≠ "")
    (hpf : f ≠ p) (fmt : Option FKind → String) :
    downloadVideoTry (behPrimaryFails p) fmt { viC9 p with videoPlayUrl := f } "/out/v.mp4"
      retries true false (fsMid retries p)
      = .done (.ok "/out/v.mp4", fsFin retries p f) := by
  have hfn2 : downloadFile (behPrimaryFails p) f "/out/v.mp4" (fsMid retries p)
      = (.ok (), fsFin retries p f) := by
    simp [downloadFile, behPrimaryFails, hpf, fsFin]
  have h2 : withRetryFS
      (downloadFile (behPrimaryFails p) ({ viC9 p with videoPlayUrl := f} : VideoInfo).videoPlayUrl
        (computeFinalPath fmt "/out/v.mp4" (fsMid retries p)))
      downloadShouldRetry retries
      ((fsMid retries p).addDir (dirname (computeFinalPath fmt "/out/v.mp4" (fsMid retries p))))
      = (.ok (), fsFin retries p f) :=
    withRetryFS_step_ok _ _ _ _ _ _ hfn2
  have hpe : ((fsMid retries p).addDir
      (dirname (computeFinalPath fmt "/out/v.mp4" (fsMid retries p)))).pathExists
      (computeFinalPath fmt "/out/v.mp4" (fsMid retries p)) = false := rfl
  unfold downloadVideoTry
  rw [if_neg (show ¬(({ viC9 p with videoPlayUrl := f} : VideoInfo).videoPlayUrl = "") from hf)]
  simp only [h2]
  rw [if_neg (by simp [hpe])]
  rfl

/-- C9: with a primary url that always fails and one fallback url that
succeeds, downloadVideo succeeds via the fallback after exhausting the
retry budget of the primary exactly once: the download-call log is
retries + 1 attempts against the primary followed by exactly one against
the fallback, the result is the destination path, and the destination
file exists. -/
theorem downloadVideo_fallback_chain (retries : Nat) (p f : String) (hp : p ≠ "")
    (hf : f ≠ "") (hpf : f ≠ p) (unlinkOk : String → FS → Bool)
    (fmt : Option FKind → String) :
    downloadVideo (behPrimaryFails p) unlinkOk fmt (viC9 p) "/out/v.mp4" retries true false
        [f] fsOutOnly = (.ok "/out/v.mp4", fsFin retries p f)
    ∧ (fsFin retries p f).calls = List.replicate (retries + 1) p ++ [f]
    ∧ (fsFin retries p f).files "/out/v.mp4" = some FKind.file := by
  have htry1 := downloadVideoTry_primary retries p hp fmt
  have htry2 := downloadVideoTry_fallback retries p f hf hpf fmt
  have hmidpe : (fsMid retries p).pathExists "/out/v.mp4" = false := rfl
  have hup : unlinkPartial unlinkOk "/out/v.mp4" (fsMid retries p) = fsMid retries p := by
    unfold unlinkPartial
    rw [if_neg (by simp [hmidpe])]
  have step1 : downloadVideo (behPrimaryFails p) unlinkOk fmt (viC9 p) "/out/v.mp4" retries
      true false [f] fsOutOnly
      = downloadVideo (behPrimaryFails p) unlinkOk fmt { viC9 p with videoPlayUrl := f }
        "/out/v.mp4" retries true false []
        (unlinkPartial unlinkOk "/out/v.mp4" (fsMid retries p)) := by
    simp only [downloadVideo, htry1]
  have step3 : downloadVideo (behPrimaryFails p) unlinkOk fmt
      { viC9 p with videoPlayUrl := f } "/out/v.mp4" retries true false []
      (fsMid retries p) = (.ok "/out/v.mp4", fsFin retries p f) := by
    simp only [downloadVideo, htry2]
  rw [step1, hup, step3]
  refine ⟨rfl, ?_, ?_⟩
  · simp [fsFin, fsMid, FS.setFile, FS.logCall]
  · simp [fsFin, FS.setFile]

/-- Witness for C9 at retries 3 with concrete urls. -/
theorem downloadVideo_fallback_chain_witness :
    downloadVideo (behPrimaryFails "http://cdn/a") (fun _ _ => true) (fun _ => "/out/f.mp4")
        (viC9 "http://cdn/a") "/out/v.mp4" 3 true false ["http://cdn/b"] fsOutOnly
      = (.ok "/out/v.mp4", fsFin 3 "http://cdn/a" "http://cdn/b")
    ∧ (fsFin 3 "http://cdn/a" "http://cdn/b").calls
        = List.replicate 4 "http://cdn/a" ++ ["http://cdn/b"]
    ∧ (fsFin 3 "http://cdn/a" "http://cdn/b").files "/out/v.mp4" = some FKind.file :=
  downloadVideo_fallback_chain 3 "http://cdn/a" "http://cdn/b" (by decide) (by decide)
    (by decide) (fun _ _ => true) (fun _ => "/out/f.mp4")
